import Mathlib

/-!
Verification of the AMOS predictive-maintenance decision engine.

Shallow embedding of the streaming inference-and-decision core:
  * `src/config.py` — scalar configuration constants;
  * `src/models/optimization_model.py` — the rule-based maintenance policy
    (`optimize_maintenance_decision`, `compute_expected_cost`,
    `get_maintenance_priority`);
  * `src/storage/buffer.py` — the bounded FIFO history buffer
    (`InMemoryBuffer`, a `collections.deque` with a maximum length);
  * `src/preprocessing/features.py` — `build_single_row_feature_df`;
  * `src/pipeline/realtime_loop.py` — `RealtimePipeline.process_row`.

Modelling conventions: Python floats become rationals (the verified
properties are order/arithmetic facts where this is faithful); `datetime`
values become rational minute offsets, so `timedelta(hours=2)` is `+ 120`
and `timedelta(minutes=m)` is `+ m`; a model adapter that can raise a
Python exception becomes a function into `Except String`, the string being
the exception rendering; a `pandas` single-row frame becomes an ordered
association list of column name and value. The numeric interpolation in the
human-readable reasoning strings is elided (no verified property reads the
reasoning text).
-/

/-! ## Configuration constants (src/config.py, lines 24-35) -/

def FAILURE_PROBA_THRESHOLD : ℚ := 35/100

def ANOMALY_SCORE_THRESHOLD : ℚ := 6/10

def MAINTENANCE_COST : ℚ := 500

def FAILURE_COST : ℚ := 5000

def DOWNTIME_COST_PER_HOUR : ℚ := 1000

def RUL_SAFETY_MARGIN : ℚ := 20

def BUFFER_MAXLEN : Nat := 500

/-! ## Maintenance policy data model (src/models/optimization_model.py) -/

/-- Enumeration `MaintenanceAction` (optimization_model.py, lines 31-38). -/
inductive MaintenanceAction : Type
  | criticalImmediate
  | scheduleUrgent
  | scheduleSoon
  | monitor
  | investigate
  | normal
deriving DecidableEq, Repr

/-- String value of each enum member (the Python `Enum` payload,
`decision.action.value`). -/
def MaintenanceAction.value : MaintenanceAction → String
  | .criticalImmediate => "critical_immediate"
  | .scheduleUrgent => "schedule_urgent"
  | .scheduleSoon => "schedule_soon"
  | .monitor => "monitor"
  | .investigate => "investigate"
  | .normal => "normal"

/-- Dataclass `MaintenanceDecision` (optimization_model.py, lines 41-54).
Times are rational minute offsets. -/
structure MaintenanceDecision : Type where
  action : MaintenanceAction
  confidence : ℚ
  failure_mode : String
  failure_probability : ℚ
  rul_estimate : ℚ
  anomaly_score : ℚ
  expected_cost : ℚ
  scheduled_time : Option ℚ
  reasoning : String
deriving DecidableEq, Repr

/-- Function `compute_expected_cost` (optimization_model.py, lines 57-99).
The Python if/elif chain covers all six enum members, so the trailing
`return 0.0` is unreachable and the total match is faithful. The
`rul_estimate` argument is taken but never read, as in the source. -/
def compute_expected_cost (failure_proba : ℚ) (rul_estimate : ℚ)
    (action : MaintenanceAction) : ℚ :=
  match action with
  | MaintenanceAction.criticalImmediate =>
      MAINTENANCE_COST + 2 * DOWNTIME_COST_PER_HOUR
  | MaintenanceAction.scheduleUrgent =>
      MAINTENANCE_COST + (3/2) * DOWNTIME_COST_PER_HOUR
  | MaintenanceAction.scheduleSoon =>
      MAINTENANCE_COST + 1 * DOWNTIME_COST_PER_HOUR
  | MaintenanceAction.monitor => failure_proba * FAILURE_COST
  | MaintenanceAction.normal => failure_proba * FAILURE_COST
  | MaintenanceAction.investigate => 100

/-- Common tail of `optimize_maintenance_decision` (optimization_model.py,
lines 219-232): once a rule has fixed the action, confidence, schedule and
reasoning, the expected cost is computed from the chosen action and the
confidence is clamped from above at 1. -/
def mkDecision (failure_probability : ℚ) (failure_mode : String)
    (rul_estimate : ℚ) (anomaly_score : ℚ) (action : MaintenanceAction)
    (confidence : ℚ) (scheduled_time : Option ℚ) (reasoning : String) :
    MaintenanceDecision :=
  { action := action
    confidence := min confidence 1
    failure_mode := failure_mode
    failure_probability := failure_probability
    rul_estimate := rul_estimate
    anomaly_score := anomaly_score
    expected_cost := compute_expected_cost failure_probability rul_estimate action
    scheduled_time := scheduled_time
    reasoning := reasoning }

/-- Function `optimize_maintenance_decision` (optimization_model.py, lines
102-232) with `current_time` always supplied explicitly (the Python default
`datetime.now()` is only taken when the caller passes `None`). The seven
branches are the source rules 1-7 in source order. -/
def optimize_maintenance_decision (failure_probability : ℚ)
    (failure_mode : String) (rul_estimate : ℚ) (anomaly_score : ℚ)
    (anomaly_flag : Bool) (current_time : ℚ) : MaintenanceDecision :=
  if anomaly_flag = true ∧ failure_mode = "NORMAL" then
    mkDecision failure_probability failure_mode rul_estimate anomaly_score
      MaintenanceAction.investigate (min anomaly_score (95/100))
      (some (current_time + 120))
      "Anomaly detected without failure prediction. Investigate sensor data and machine behavior."
  else if failure_probability > 7/10 ∨ rul_estimate < 30 then
    mkDecision failure_probability failure_mode rul_estimate anomaly_score
      MaintenanceAction.criticalImmediate
      (max failure_probability (1 - rul_estimate / 30))
      (some current_time)
      "CRITICAL: High failure risk or very low RUL. Stop machine and perform maintenance NOW."
  else if failure_probability > 1/2 ∧ rul_estimate < 60 then
    mkDecision failure_probability failure_mode rul_estimate anomaly_score
      MaintenanceAction.scheduleUrgent (failure_probability * (9/10))
      (some (current_time + max (min (rul_estimate - RUL_SAFETY_MARGIN) 240) 30))
      "URGENT: Elevated failure risk with low RUL. Schedule maintenance within this shift."
  else if failure_probability > FAILURE_PROBA_THRESHOLD ∧ rul_estimate < 120 then
    mkDecision failure_probability failure_mode rul_estimate anomaly_score
      MaintenanceAction.scheduleSoon (failure_probability * (8/10))
      (some (current_time + max (rul_estimate - RUL_SAFETY_MARGIN) 60))
      "WARNING: Moderate failure risk. Plan maintenance within 1-2 days."
  else if failure_probability > FAILURE_PROBA_THRESHOLD then
    mkDecision failure_probability failure_mode rul_estimate anomaly_score
      MaintenanceAction.monitor (7/10) none
      "MONITOR: Moderate failure risk but adequate RUL. Continue monitoring."
  else if rul_estimate < 60 then
    mkDecision failure_probability failure_mode rul_estimate anomaly_score
      MaintenanceAction.scheduleSoon (6/10)
      (some (current_time + max (rul_estimate - RUL_SAFETY_MARGIN) 30))
      "Low RUL approaching end of life. Schedule preventive maintenance even though failure probability is low."
  else
    mkDecision failure_probability failure_mode rul_estimate anomaly_score
      MaintenanceAction.normal (1 - failure_probability) none
      "Normal operation. Low failure risk. Continue normal monitoring."

/-- Function `get_maintenance_priority` (optimization_model.py, lines
235-250). The Python `dict.get` default 6 is unreachable because the map is
total over the enum. -/
def get_maintenance_priority (decision : MaintenanceDecision) : Nat :=
  match decision.action with
  | MaintenanceAction.criticalImmediate => 1
  | MaintenanceAction.scheduleUrgent => 2
  | MaintenanceAction.investigate => 3
  | MaintenanceAction.scheduleSoon => 4
  | MaintenanceAction.monitor => 5
  | MaintenanceAction.normal => 6

@[simp] theorem mkDecision_action (p : ℚ) (m : String) (r s : ℚ)
    (a : MaintenanceAction) (c : ℚ) (st : Option ℚ) (re : String) :
    (mkDecision p m r s a c st re).action = a := rfl

@[simp] theorem mkDecision_confidence (p : ℚ) (m : String) (r s : ℚ)
    (a : MaintenanceAction) (c : ℚ) (st : Option ℚ) (re : String) :
    (mkDecision p m r s a c st re).confidence = min c 1 := rfl

@[simp] theorem mkDecision_scheduled_time (p : ℚ) (m : String) (r s : ℚ)
    (a : MaintenanceAction) (c : ℚ) (st : Option ℚ) (re : String) :
    (mkDecision p m r s a c st re).scheduled_time = st := rfl

@[simp] theorem mkDecision_expected_cost (p : ℚ) (m : String) (r s : ℚ)
    (a : MaintenanceAction) (c : ℚ) (st : Option ℚ) (re : String) :
    (mkDecision p m r s a c st re).expected_cost
      = compute_expected_cost p r a := rfl

/-! ## Ordered rule list (spec section 4.2)

The spec states an authoritative evaluation order (a)-(g) with first match
winning. `policyRules` transcribes that ordered list of (condition, action)
pairs from the SPEC wording so it can be compared with the nested
conditionals of the source; `firstMatch` returns the outcome of the first
rule whose condition holds. -/

def firstMatch : List (Bool × MaintenanceAction) → MaintenanceAction
  | [] => MaintenanceAction.normal
  | (c, a) :: rest => if c then a else firstMatch rest

/-- Ordered rule list from the spec, order (a)-(g): anomaly-without-fault,
critical, urgent, probability-based schedule-soon, monitor, low-RUL
fallback schedule-soon, normal. -/
def policyRules (failure_probability : ℚ) (failure_mode : String)
    (rul_estimate : ℚ) (anomaly_flag : Bool) :
    List (Bool × MaintenanceAction) :=
  [ (anomaly_flag && (failure_mode == "NORMAL"), MaintenanceAction.investigate),
    (decide (failure_probability > 7/10) || decide (rul_estimate < 30),
      MaintenanceAction.criticalImmediate),
    (decide (failure_probability > 1/2) && decide (rul_estimate < 60),
      MaintenanceAction.scheduleUrgent),
    (decide (failure_probability > FAILURE_PROBA_THRESHOLD)
        && decide (rul_estimate < 120),
      MaintenanceAction.scheduleSoon),
    (decide (failure_probability > FAILURE_PROBA_THRESHOLD),
      MaintenanceAction.monitor),
    (decide (rul_estimate < 60), MaintenanceAction.scheduleSoon),
    (true, MaintenanceAction.normal) ]

/-! ## History buffer (src/storage/buffer.py)

`InMemoryBuffer` wraps `collections.deque(maxlen=N)`: `append` adds the new
item on the right and, once the length would exceed `maxlen`, the oldest
items fall off the left, so exactly the last `maxlen` items remain. The
deque is modelled as the list of its items, oldest first. -/

namespace InMemoryBuffer

variable {α : Type}

/-- Method `append` (buffer.py, line 14): `deque.append` keeps the last
`maxlen` elements of `data ++ [item]`. On every state reachable from the
empty buffer `data.length ≤ maxlen`, so the drop removes at most one
element, exactly the deque behaviour. -/
def append (maxlen : Nat) (data : List α) (item : α) : List α :=
  (data ++ [item]).drop (data.length + 1 - maxlen)

/-- Method `latest` (buffer.py, lines 17-20): empty for `n ≤ 0`, else the
Python slice `list(deque)[-n:]`, the last `min n size` items. -/
def latest (data : List α) (n : Int) : List α :=
  if n ≤ 0 then [] else data.drop (data.length - n.toNat)

/-- Method `all` (buffer.py, lines 22-23): the buffer contents oldest
first. -/
def all (data : List α) : List α := data

/-- State of a buffer after a sequence of `append` calls starting from the
empty buffer built by `InMemoryBuffer.__init__`. -/
def fromAppends (maxlen : Nat) (xs : List α) : List α :=
  xs.foldl (append maxlen) []

end InMemoryBuffer

/-! ## Feature view (src/preprocessing/features.py) -/

/-- A single-row dataframe or series: an ordered association list of column
name and numeric value (the categorical quality class is numerically
encoded). -/
abbrev Row := List (String × ℚ)

/-- Constant `FAILURE_COLS` (features.py, line 5). -/
def FAILURE_COLS : List String := ["Machine failure", "TWF", "HDF", "PWF", "OSF", "RNF"]

/-- Column membership test, `c in df.columns`. -/
def hasColumn (df : Row) (c : String) : Bool := (df.map Prod.fst).contains c

/-- Column lookup in a single-row frame: the value of column `c` when
present. -/
def lookupCol (df : Row) (c : String) : Option ℚ :=
  (df.find? (fun kv => kv.1 == c)).map Prod.snd

/-- Function `build_single_row_feature_df` (features.py, lines 29-40): the
row becomes a one-row frame; each failure column that is absent is added
with value 0 (`df[c] = 0`, a new rightmost column); then all failure
columns are dropped. No other column is added, defaulted or removed, and
the function never raises. -/
def build_single_row_feature_df (row : Row) : Row :=
  let df := FAILURE_COLS.foldl
    (fun df c => if hasColumn df c then df else df ++ [(c, 0)]) row
  df.filter (fun kv => !(FAILURE_COLS.contains kv.1))

/-! ## Realtime pipeline (src/pipeline/realtime_loop.py) -/

/-- Dataclass `RealtimeOutput` (realtime_loop.py, lines 32-48). The
`scheduled_time` ISO string is kept as the underlying rational minute
offset. -/
structure RealtimeOutput : Type where
  row_index : Nat
  raw_row : Row
  anomaly_score : ℚ
  anomaly_flag : Bool
  failure_proba : ℚ
  failure_flag : Bool
  failure_mode : String
  failure_mode_confidence : ℚ
  rul_estimate : ℚ
  energy_estimate : ℚ
  maintenance_action : String
  maintenance_priority : Nat
  maintenance_reasoning : String
  expected_cost : ℚ
  scheduled_time : Option ℚ
deriving DecidableEq, Repr

/-- The five pre-loaded model adapters held by `RealtimePipeline`. Each is a
scoring function that may raise a Python exception, modelled as
`Except String`; field names follow the adapter functions the pipeline
calls. `predict_failure_mode_proba` stands for the confidence
`proba[0].max()` the pipeline extracts from the probability vector. -/
structure Adapters : Type where
  compute_anomaly_score : Row → Except String ℚ
  failure_probability : Row → Except String ℚ
  predict_failure_mode : Row → Except String String
  predict_failure_mode_proba : Row → Except String ℚ
  predict_rul : Row → Except String ℚ
  predict_energy : Row → Except String ℚ

/-- Scoring and decision part of `RealtimePipeline.process_row`
(realtime_loop.py, lines 74-145): build the feature view, call the five
adapters in source order (steps 1-5), derive the anomaly and failure flags
from the scores by threshold comparison, take the maintenance decision
(step 6) and assemble the output record. Any adapter exception aborts the
call and propagates unchanged, exactly as an uncaught Python exception
does (the body has no try/except). -/
def process_row_core (ad : Adapters) (row : Row) (idx : Nat) (t : ℚ) :
    Except String RealtimeOutput :=
  let X := build_single_row_feature_df row
  match ad.compute_anomaly_score X with
  | Except.error e => Except.error e
  | Except.ok anomaly_score =>
    let anomaly_flag := decide (anomaly_score ≥ ANOMALY_SCORE_THRESHOLD)
    match ad.failure_probability X with
    | Except.error e => Except.error e
    | Except.ok failure_proba =>
      let failure_flag := decide (failure_proba ≥ FAILURE_PROBA_THRESHOLD)
      match ad.predict_failure_mode X with
      | Except.error e => Except.error e
      | Except.ok failure_mode =>
        match ad.predict_failure_mode_proba X with
        | Except.error e => Except.error e
        | Except.ok failure_mode_confidence =>
          match ad.predict_rul X with
          | Except.error e => Except.error e
          | Except.ok rul_estimate =>
            match ad.predict_energy X with
            | Except.error e => Except.error e
            | Except.ok energy_estimate =>
              let decision := optimize_maintenance_decision failure_proba
                failure_mode rul_estimate anomaly_score anomaly_flag t
              Except.ok
                { row_index := idx
                  raw_row := row
                  anomaly_score := anomaly_score
                  anomaly_flag := anomaly_flag
                  failure_proba := failure_proba
                  failure_flag := failure_flag
                  failure_mode := failure_mode
                  failure_mode_confidence := failure_mode_confidence
                  rul_estimate := rul_estimate
                  energy_estimate := energy_estimate
                  maintenance_action := decision.action.value
                  maintenance_priority := get_maintenance_priority decision
                  maintenance_reasoning := decision.reasoning
                  expected_cost := decision.expected_cost
                  scheduled_time := decision.scheduled_time }

/-- Full `RealtimePipeline.process_row` including its single side effect
(realtime_loop.py, line 147): the record is appended to the history buffer
only after every model call and the decision have succeeded; an adapter
exception leaves the buffer untouched. Returns the Python result (normal
return or propagated exception) together with the buffer state after the
call. -/
def process_row (ad : Adapters) (row : Row) (idx : Nat) (t : ℚ)
    (buffer : List RealtimeOutput) (maxlen : Nat) :
    Except String RealtimeOutput × List RealtimeOutput :=
  match process_row_core ad row idx t with
  | Except.ok out => (Except.ok out, InMemoryBuffer.append maxlen buffer out)
  | Except.error e => (Except.error e, buffer)

/-- First exception raised by the five adapter calls in the source call
order of `process_row` (anomaly, binary fault, multiclass fault, multiclass
confidence, RUL, energy), when one fails on the feature view. -/
def firstAdapterError (ad : Adapters) (X : Row) : Option String :=
  match ad.compute_anomaly_score X with
  | Except.error e => some e
  | Except.ok _ =>
    match ad.failure_probability X with
    | Except.error e => some e
    | Except.ok _ =>
      match ad.predict_failure_mode X with
      | Except.error e => some e
      | Except.ok _ =>
        match ad.predict_failure_mode_proba X with
        | Except.error e => some e
        | Except.ok _ =>
          match ad.predict_rul X with
          | Except.error e => some e
          | Except.ok _ =>
            match ad.predict_energy X with
            | Except.error e => some e
            | Except.ok _ => none

/-- Adapters that all succeed, with fixed small outputs; used to exercise
the pipeline on a concrete healthy observation. -/
def okAdapters : Adapters :=
  { compute_anomaly_score := fun _ => Except.ok (1/2)
    failure_probability := fun _ => Except.ok (1/10)
    predict_failure_mode := fun _ => Except.ok "NORMAL"
    predict_failure_mode_proba := fun _ => Except.ok (9/10)
    predict_rul := fun _ => Except.ok 200
    predict_energy := fun _ => Except.ok 5 }

/-- Like `okAdapters` but the anomaly adapter raises. -/
def anomalyFailingAdapters : Adapters :=
  { okAdapters with
    compute_anomaly_score := fun _ => Except.error "ValueError: malformed feature" }

/-- Like `okAdapters` but the RUL adapter raises, with the same underlying
exception as `anomalyFailingAdapters`. -/
def rulFailingAdapters : Adapters :=
  { okAdapters with
    predict_rul := fun _ => Except.error "ValueError: malformed feature" }

/-! ## Buffer lemmas and claim C3 -/

theorem InMemoryBuffer.append_drop {α : Type} (N : Nat) (u : List α) (x : α) :
    InMemoryBuffer.append N (u.drop (u.length - N)) x
      = (u ++ [x]).drop ((u ++ [x]).length - N) := by
  unfold InMemoryBuffer.append
  rcases le_or_lt u.length N with h | h
  · simp [Nat.sub_eq_zero_of_le h, List.length_append]
  · have hv : (u.drop (u.length - N)).length = N := by
      rw [List.length_drop]; omega
    rw [hv]
    have h1 : N + 1 - N = 1 := by omega
    rw [h1, List.length_append]
    rcases Nat.eq_zero_or_pos N with h0 | h0
    · subst h0
      simp [List.drop_eq_nil_of_le, Nat.le_of_lt h]
    · rw [List.drop_append_of_le_length (by rw [List.length_drop]; omega),
        List.drop_drop]
      have h3 : u.length + [x].length - N = u.length - N + 1 := by
        simp only [List.length_singleton]; omega
      rw [h3, List.drop_append_of_le_length
        (by omega : u.length - N + 1 ≤ u.length)]

theorem InMemoryBuffer.foldl_append_drop {α : Type} (N : Nat) (xs : List α) :
    ∀ u : List α,
      xs.foldl (InMemoryBuffer.append N) (u.drop (u.length - N))
        = (u ++ xs).drop ((u ++ xs).length - N) := by
  induction xs with
  | nil => intro u; simp
  | cons x xs ih =>
      intro u
      rw [List.foldl_cons, InMemoryBuffer.append_drop]
      simpa [List.append_assoc] using ih (u ++ [x])

/-- Claim C3: for every sequence of appends to a buffer of capacity N the
length never exceeds N at any intermediate state, `all` returns exactly the
last `min (total appends) N` appended records in insertion order (FIFO
eviction of the oldest), and with capacity 3 appending 0,1,2,3 leaves
exactly the records 1,2,3 in that order. -/
theorem buffer_fifo_bounded {α : Type} (N : Nat) (xs : List α) :
    InMemoryBuffer.all (InMemoryBuffer.fromAppends N xs)
      = xs.drop (xs.length - N) ∧
    (InMemoryBuffer.fromAppends N xs).length = min xs.length N ∧
    (∀ k : Nat, (InMemoryBuffer.fromAppends N (xs.take k)).length ≤ N) ∧
    InMemoryBuffer.all (InMemoryBuffer.fromAppends 3 [0, 1, 2, 3])
      = ([1, 2, 3] : List ℕ) := by
  have key : ∀ ys : List α,
      InMemoryBuffer.fromAppends N ys = ys.drop (ys.length - N) := by
    intro ys
    simpa [InMemoryBuffer.fromAppends] using
      InMemoryBuffer.foldl_append_drop N ys ([] : List α)
  refine ⟨?_, ?_, ?_, by decide⟩
  · simpa [InMemoryBuffer.all] using key xs
  · rw [key, List.length_drop]; omega
  · intro k
    rw [key, List.length_drop]; omega

/-! ## Policy-engine claims -/

/-- Claim C1: the decision rules are evaluated in the exact spec order
(a) anomaly-without-fault investigate, (b) critical, (c) urgent,
(d) probability-based schedule-soon, (e) monitor, (f) low-RUL fallback
schedule-soon, (g) normal, and the first rule whose condition holds fixes
the action; in particular an anomaly flag together with failure mode NORMAL
yields investigate whatever the probability and RUL are. -/
theorem opt_rule_order (p : ℚ) (mode : String) (rul score : ℚ)
    (flag : Bool) (t : ℚ) :
    (optimize_maintenance_decision p mode rul score flag t).action
      = firstMatch (policyRules p mode rul flag) ∧
    (flag = true → mode = "NORMAL" →
      (optimize_maintenance_decision p mode rul score flag t).action
        = MaintenanceAction.investigate) := by
  have hrules : firstMatch (policyRules p mode rul flag)
      = if flag = true ∧ mode = "NORMAL" then MaintenanceAction.investigate
        else if p > 7/10 ∨ rul < 30 then MaintenanceAction.criticalImmediate
        else if p > 1/2 ∧ rul < 60 then MaintenanceAction.scheduleUrgent
        else if p > FAILURE_PROBA_THRESHOLD ∧ rul < 120 then
          MaintenanceAction.scheduleSoon
        else if p > FAILURE_PROBA_THRESHOLD then MaintenanceAction.monitor
        else if rul < 60 then MaintenanceAction.scheduleSoon
        else MaintenanceAction.normal := by
    simp only [policyRules, firstMatch, Bool.and_eq_true, Bool.or_eq_true,
      decide_eq_true_eq, beq_iff_eq, if_true]
  constructor
  · rw [hrules]
    simp only [optimize_maintenance_decision,
      apply_ite MaintenanceDecision.action, mkDecision_action]
  · intro hf hm
    unfold optimize_maintenance_decision
    rw [if_pos ⟨hf, hm⟩]
    rfl

/-- Claim C2: whenever the investigate rule does not fire, a failure
probability above 0.70 or an RUL below 30 minutes yields the
critical-immediate action, priority rank 1, scheduled at the supplied
current time. -/
theorem opt_critical_rule (p : ℚ) (mode : String) (rul score : ℚ)
    (flag : Bool) (t : ℚ)
    (h1 : ¬(flag = true ∧ mode = "NORMAL"))
    (h2 : p > 7/10 ∨ rul < 30) :
    (optimize_maintenance_decision p mode rul score flag t).action
      = MaintenanceAction.criticalImmediate ∧
    get_maintenance_priority (optimize_maintenance_decision p mode rul score flag t)
      = 1 ∧
    (optimize_maintenance_decision p mode rul score flag t).scheduled_time
      = some t := by
  unfold optimize_maintenance_decision
  rw [if_neg h1, if_pos h2]
  exact ⟨rfl, rfl, rfl⟩

/-- Witness for C2 at the spec scenario probability 0.85, RUL 100,
no anomaly flag, mode TWF. -/
theorem opt_critical_rule_witness :
    (optimize_maintenance_decision (85/100) "TWF" 100 0 false 0).action
      = MaintenanceAction.criticalImmediate ∧
    get_maintenance_priority (optimize_maintenance_decision (85/100) "TWF" 100 0 false 0)
      = 1 ∧
    (optimize_maintenance_decision (85/100) "TWF" 100 0 false 0).scheduled_time
      = some 0 :=
  opt_critical_rule (85/100) "TWF" 100 0 false 0
    (by simp) (Or.inl (by norm_num))

/-- Counterexample for claim C6: with a negative anomaly score (the
IsolationForest score is real-valued and unbounded), the anomaly flag set
and failure mode NORMAL, the investigate rule sets confidence to
`min(anomaly_score, 0.95)`, and the final clamp `min(confidence, 1.0)`
only bounds it from above, so the returned confidence is negative. The
failure probability of the input is 1/2, inside [0,1]. -/
theorem opt_confidence_negative :
    (optimize_maintenance_decision (1/2) "NORMAL" 100 (-(1/2)) true 0).confidence
      < 0 := by
  unfold optimize_maintenance_decision
  rw [if_pos ⟨rfl, rfl⟩, mkDecision_confidence]
  norm_num

/-- Claim C6 as amended: for a failure probability in [0,1] and a
nonnegative anomaly score (any score at which the orchestrator can set the
anomaly flag is at least the threshold 0.6, hence nonnegative), the
returned confidence lies in [0,1], for every failure mode, RUL and time. -/
theorem opt_confidence_range (p : ℚ) (mode : String) (rul score : ℚ)
    (flag : Bool) (t : ℚ)
    (hp0 : 0 ≤ p) (hp1 : p ≤ 1) (hs : 0 ≤ score) :
    0 ≤ (optimize_maintenance_decision p mode rul score flag t).confidence ∧
    (optimize_maintenance_decision p mode rul score flag t).confidence ≤ 1 := by
  unfold optimize_maintenance_decision
  split_ifs <;>
    rw [mkDecision_confidence] <;>
    refine ⟨le_min ?_ zero_le_one, min_le_right _ _⟩
  · exact le_min hs (by norm_num)
  · exact hp0.trans (le_max_left _ _)
  · exact mul_nonneg hp0 (by norm_num)
  · exact mul_nonneg hp0 (by norm_num)
  · norm_num
  · norm_num
  · linarith

/-- Witness for the amended C6 at probability 0.2, score 0.8, flag set,
mode NORMAL. -/
theorem opt_confidence_range_witness :
    0 ≤ (optimize_maintenance_decision (2/10) "NORMAL" 150 (8/10) true 0).confidence ∧
    (optimize_maintenance_decision (2/10) "NORMAL" 150 (8/10) true 0).confidence ≤ 1 :=
  opt_confidence_range (2/10) "NORMAL" 150 (8/10) true 0
    (by norm_num) (by norm_num) (by norm_num)

theorem opt_expected_cost_eq (p : ℚ) (mode : String) (rul score : ℚ)
    (flag : Bool) (t : ℚ) :
    (optimize_maintenance_decision p mode rul score flag t).expected_cost
      = compute_expected_cost p rul
          (optimize_maintenance_decision p mode rul score flag t).action := by
  unfold optimize_maintenance_decision
  split_ifs <;> rw [mkDecision_expected_cost, mkDecision_action]

theorem compute_expected_cost_nonneg (p rul : ℚ) (a : MaintenanceAction)
    (hp : 0 ≤ p) : 0 ≤ compute_expected_cost p rul a := by
  cases a
  case monitor => exact mul_nonneg hp (by norm_num [FAILURE_COST])
  case normal => exact mul_nonneg hp (by norm_num [FAILURE_COST])
  all_goals norm_num [compute_expected_cost, MAINTENANCE_COST,
    DOWNTIME_COST_PER_HOUR]

/-- Claim C7: for probability in [0,1] and any RUL the expected cost of
the returned decision is nonnegative, and per action the cost is the fixed
maintenance cost plus downtime hours (2.0, 1.5, 1.0 for critical, urgent,
soon) times the hourly downtime rate, probability times the unplanned
failure cost for monitor and normal, and the fixed constant 100 for
investigate. -/
theorem opt_cost_nonneg (p : ℚ) (mode : String) (rul score : ℚ)
    (flag : Bool) (t : ℚ) (hp0 : 0 ≤ p) (hp1 : p ≤ 1) :
    0 ≤ (optimize_maintenance_decision p mode rul score flag t).expected_cost ∧
    (optimize_maintenance_decision p mode rul score flag t).expected_cost
      = compute_expected_cost p rul
          (optimize_maintenance_decision p mode rul score flag t).action ∧
    compute_expected_cost p rul MaintenanceAction.criticalImmediate
      = MAINTENANCE_COST + 2 * DOWNTIME_COST_PER_HOUR ∧
    compute_expected_cost p rul MaintenanceAction.scheduleUrgent
      = MAINTENANCE_COST + (3/2) * DOWNTIME_COST_PER_HOUR ∧
    compute_expected_cost p rul MaintenanceAction.scheduleSoon
      = MAINTENANCE_COST + 1 * DOWNTIME_COST_PER_HOUR ∧
    compute_expected_cost p rul MaintenanceAction.monitor = p * FAILURE_COST ∧
    compute_expected_cost p rul MaintenanceAction.normal = p * FAILURE_COST ∧
    compute_expected_cost p rul MaintenanceAction.investigate = 100 := by
  refine ⟨?_, opt_expected_cost_eq p mode rul score flag t,
    rfl, rfl, rfl, rfl, rfl, rfl⟩
  rw [opt_expected_cost_eq]
  exact compute_expected_cost_nonneg p rul _ hp0

/-- Witness for C7 at probability 0.5, RUL 45. -/
theorem opt_cost_nonneg_witness :
    0 ≤ (optimize_maintenance_decision (1/2) "TWF" 45 0 false 0).expected_cost ∧
    (optimize_maintenance_decision (1/2) "TWF" 45 0 false 0).expected_cost
      = compute_expected_cost (1/2) 45
          (optimize_maintenance_decision (1/2) "TWF" 45 0 false 0).action ∧
    compute_expected_cost (1/2) 45 MaintenanceAction.criticalImmediate
      = MAINTENANCE_COST + 2 * DOWNTIME_COST_PER_HOUR ∧
    compute_expected_cost (1/2) 45 MaintenanceAction.scheduleUrgent
      = MAINTENANCE_COST + (3/2) * DOWNTIME_COST_PER_HOUR ∧
    compute_expected_cost (1/2) 45 MaintenanceAction.scheduleSoon
      = MAINTENANCE_COST + 1 * DOWNTIME_COST_PER_HOUR ∧
    compute_expected_cost (1/2) 45 MaintenanceAction.monitor
      = (1/2) * FAILURE_COST ∧
    compute_expected_cost (1/2) 45 MaintenanceAction.normal
      = (1/2) * FAILURE_COST ∧
    compute_expected_cost (1/2) 45 MaintenanceAction.investigate = 100 :=
  opt_cost_nonneg (1/2) "TWF" 45 0 false 0 (by norm_num) (by norm_num)

/-- Claim C8: the scheduled time of the returned decision follows the
action: critical-immediate at the current time; schedule-urgent at current
time plus `clamp(rul - safety margin, 30, 240)` minutes; investigate at
current time plus 2 hours; monitor and normal carry no scheduled time; and
schedule-soon at current time plus `max(rul - safety margin, 60)` minutes
for the probability-based rule, or `max(rul - safety margin, 30)` minutes
for the low-RUL fallback rule. The two schedule-soon cases are separated
by the probability threshold: the action can only come from rule 4 when
the failure probability exceeds `FAILURE_PROBA_THRESHOLD` (otherwise rule
4 cannot fire) and only from the rule 6 fallback when it does not
(otherwise rule 4 or rule 5 would have fired first), so each bound is tied
to its rule. -/
theorem opt_schedule_times (p : ℚ) (mode : String) (rul score : ℚ)
    (flag : Bool) (t : ℚ) :
    ((optimize_maintenance_decision p mode rul score flag t).action
        = MaintenanceAction.criticalImmediate →
      (optimize_maintenance_decision p mode rul score flag t).scheduled_time
        = some t) ∧
    ((optimize_maintenance_decision p mode rul score flag t).action
        = MaintenanceAction.scheduleUrgent →
      (optimize_maintenance_decision p mode rul score flag t).scheduled_time
        = some (t + max (min (rul - RUL_SAFETY_MARGIN) 240) 30)) ∧
    ((optimize_maintenance_decision p mode rul score flag t).action
        = MaintenanceAction.investigate →
      (optimize_maintenance_decision p mode rul score flag t).scheduled_time
        = some (t + 120)) ∧
    ((optimize_maintenance_decision p mode rul score flag t).action
        = MaintenanceAction.monitor →
      (optimize_maintenance_decision p mode rul score flag t).scheduled_time
        = none) ∧
    ((optimize_maintenance_decision p mode rul score flag t).action
        = MaintenanceAction.normal →
      (optimize_maintenance_decision p mode rul score flag t).scheduled_time
        = none) ∧
    ((optimize_maintenance_decision p mode rul score flag t).action
        = MaintenanceAction.scheduleSoon → p > FAILURE_PROBA_THRESHOLD →
      (optimize_maintenance_decision p mode rul score flag t).scheduled_time
        = some (t + max (rul - RUL_SAFETY_MARGIN) 60)) ∧
    ((optimize_maintenance_decision p mode rul score flag t).action
        = MaintenanceAction.scheduleSoon → ¬(p > FAILURE_PROBA_THRESHOLD) →
      (optimize_maintenance_decision p mode rul score flag t).scheduled_time
        = some (t + max (rul - RUL_SAFETY_MARGIN) 30)) := by
  unfold optimize_maintenance_decision
  split_ifs with h1 h2 h3 h4 h5 h6 <;>
    simp only [mkDecision_action, mkDecision_scheduled_time] <;>
    refine ⟨?_, ?_, ?_, ?_, ?_, ?_, ?_⟩ <;>
    intros <;>
    first
      | rfl
      | trivial
      | exact absurd h4.1 (by assumption)

/-- Claim C9: the decision policy is deterministic; two calls with
identical inputs and the same explicitly supplied current time return
decisions with identical action, expected cost and derived priority. -/
theorem opt_deterministic (p : ℚ) (mode : String) (rul score : ℚ)
    (flag : Bool) (t : ℚ) (d1 d2 : MaintenanceDecision)
    (h1 : d1 = optimize_maintenance_decision p mode rul score flag t)
    (h2 : d2 = optimize_maintenance_decision p mode rul score flag t) :
    d1.action = d2.action ∧ d1.expected_cost = d2.expected_cost ∧
    get_maintenance_priority d1 = get_maintenance_priority d2 := by
  subst h1; subst h2
  exact ⟨rfl, rfl, rfl⟩

/-- Witness for C9 at a concrete repeated call. -/
theorem opt_deterministic_witness :
    (optimize_maintenance_decision (1/2) "HDF" 45 0 false 0).action
      = (optimize_maintenance_decision (1/2) "HDF" 45 0 false 0).action ∧
    (optimize_maintenance_decision (1/2) "HDF" 45 0 false 0).expected_cost
      = (optimize_maintenance_decision (1/2) "HDF" 45 0 false 0).expected_cost ∧
    get_maintenance_priority (optimize_maintenance_decision (1/2) "HDF" 45 0 false 0)
      = get_maintenance_priority (optimize_maintenance_decision (1/2) "HDF" 45 0 false 0) :=
  opt_deterministic (1/2) "HDF" 45 0 false 0 _ _ rfl rfl

/-! ## Feature-view claims -/

theorem build_foldl_extends (cols : List String) :
    ∀ df : Row, ∃ e : Row,
      cols.foldl (fun df c => if hasColumn df c then df else df ++ [(c, 0)]) df
        = df ++ e ∧ ∀ kv ∈ e, kv.1 ∈ cols := by
  induction cols with
  | nil => intro df; exact ⟨[], by simp⟩
  | cons c cols ih =>
      intro df
      rw [List.foldl_cons]
      by_cases hc : hasColumn df c
      · rw [if_pos hc]
        obtain ⟨e, he, hmem⟩ := ih df
        exact ⟨e, he, fun kv hkv => List.mem_cons_of_mem _ (hmem kv hkv)⟩
      · rw [if_neg hc]
        obtain ⟨e, he, hmem⟩ := ih (df ++ [(c, 0)])
        refine ⟨(c, 0) :: e, ?_, ?_⟩
        · rw [he, List.append_assoc]; rfl
        · intro kv hkv
          rcases List.mem_cons.mp hkv with h | h
          · rw [h]; exact List.mem_cons_self _ _
          · exact List.mem_cons_of_mem _ (hmem kv h)

theorem build_eq_filter (row : Row) :
    build_single_row_feature_df row
      = row.filter (fun kv => !(FAILURE_COLS.contains kv.1)) := by
  unfold build_single_row_feature_df
  obtain ⟨e, he, hmem⟩ := build_foldl_extends FAILURE_COLS row
  rw [he, List.filter_append]
  have hnil : e.filter (fun kv => !(FAILURE_COLS.contains kv.1)) = [] := by
    rw [List.filter_eq_nil_iff]
    intro kv hkv
    have hin := hmem kv hkv
    simp [hin]
  rw [hnil, List.append_nil]

/-- Counterexample for claim C5: an observation missing the predictive
attribute Torque, required by the trained models, is NOT defaulted to 0 by
`build_single_row_feature_df` — the column is simply absent from the
feature view (only the six label columns are ever defaulted, and they are
then dropped). So the claim that any missing required field defaults to the
neutral value 0 fails on this input. -/
theorem feature_missing_not_defaulted :
    build_single_row_feature_df [("Type", 1)] = [("Type", 1)] ∧
    lookupCol (build_single_row_feature_df [("Type", 1)]) "Torque [Nm]" ≠ some 0 := by
  constructor
  · decide
  · decide

/-- Claim C5 as amended: the feature view strips exactly the six
label/flag columns and preserves every other attribute of the observation
with its value and order unchanged (the function is total, so a row
missing any field never raises); a missing label column is internally
defaulted to 0 and then dropped, while a missing predictive attribute
remains absent from the feature view rather than being defaulted to 0. -/
theorem feature_strip_preserve (row : Row) :
    build_single_row_feature_df row
      = row.filter (fun kv => !(FAILURE_COLS.contains kv.1)) ∧
    (∀ c ∈ FAILURE_COLS, lookupCol (build_single_row_feature_df row) c = none) ∧
    (∀ kv ∈ row, FAILURE_COLS.contains kv.1 = false →
      kv ∈ build_single_row_feature_df row) := by
  refine ⟨build_eq_filter row, ?_, ?_⟩
  · intro c hc
    rw [build_eq_filter]
    unfold lookupCol
    cases hfind : (row.filter (fun kv => !(FAILURE_COLS.contains kv.1))).find?
        (fun kv => kv.1 == c) with
    | none => rfl
    | some kv =>
        exfalso
        have hmem := List.mem_of_find?_eq_some hfind
        have hbeq := List.find?_some hfind
        rw [List.mem_filter] at hmem
        have h1 : kv.1 = c := by simpa using hbeq
        have h2 := hmem.2
        rw [h1] at h2
        simp [hc] at h2
  · intro kv hkv hnc
    rw [build_eq_filter]
    exact List.mem_filter.mpr ⟨hkv, by simp only [hnc, Bool.not_false]⟩

/-! ## Pipeline claims -/

/-- Counterexample for claim C4: the repository defines no
`ModelInferenceError` and `process_row` has no exception handler, so a
failing adapter call propagates its own raw exception unchanged. An
anomaly-adapter failure and an RUL-adapter failure with the same underlying
exception produce exactly the same observable outcome of `process_row`, so
the surfaced error does not identify which adapter failed. The buffer part
of the claim does hold: the buffer is left unchanged (here empty). -/
theorem process_row_error_unidentified :
    process_row anomalyFailingAdapters [("Type", 1)] 0 0 [] 500
      = process_row rulFailingAdapters [("Type", 1)] 0 0 [] 500 ∧
    (process_row anomalyFailingAdapters [("Type", 1)] 0 0 [] 500).2 = [] :=
  ⟨rfl, rfl⟩

/-- Claim C4 as amended: every `process_row` call is all-or-nothing —
either every adapter call succeeds and the call returns a fully assembled
record, appending exactly that record to the history buffer, or some
adapter fails and the call surfaces the own exception of the first
failing adapter unchanged (the code defines no `ModelInferenceError` wrapper and
does not mark which adapter failed) with the buffer left exactly as it
was. -/
theorem process_row_all_or_nothing (ad : Adapters) (row : Row) (idx : Nat)
    (t : ℚ) (buffer : List RealtimeOutput) (maxlen : Nat) :
    (∃ out, process_row_core ad row idx t = Except.ok out ∧
      firstAdapterError ad (build_single_row_feature_df row) = none ∧
      process_row ad row idx t buffer maxlen
        = (Except.ok out, InMemoryBuffer.append maxlen buffer out)) ∨
    (∃ e, process_row_core ad row idx t = Except.error e ∧
      firstAdapterError ad (build_single_row_feature_df row) = some e ∧
      process_row ad row idx t buffer maxlen = (Except.error e, buffer)) := by
  simp only [process_row, process_row_core, firstAdapterError]
  rcases h1 : ad.compute_anomaly_score (build_single_row_feature_df row)
    with e | v1 <;> simp only [h1]
  · exact Or.inr ⟨e, rfl, rfl, rfl⟩
  rcases h2 : ad.failure_probability (build_single_row_feature_df row)
    with e | v2 <;> simp only [h2]
  · exact Or.inr ⟨e, rfl, rfl, rfl⟩
  rcases h3 : ad.predict_failure_mode (build_single_row_feature_df row)
    with e | v3 <;> simp only [h3]
  · exact Or.inr ⟨e, rfl, rfl, rfl⟩
  rcases h4 : ad.predict_failure_mode_proba (build_single_row_feature_df row)
    with e | v4 <;> simp only [h4]
  · exact Or.inr ⟨e, rfl, rfl, rfl⟩
  rcases h5 : ad.predict_rul (build_single_row_feature_df row)
    with e | v5 <;> simp only [h5]
  · exact Or.inr ⟨e, rfl, rfl, rfl⟩
  rcases h6 : ad.predict_energy (build_single_row_feature_df row)
    with e | v6 <;> simp only [h6]
  · exact Or.inr ⟨e, rfl, rfl, rfl⟩
  exact Or.inl ⟨_, rfl, trivial, rfl⟩

/-- Claim C10: in a successful `process_row` call the anomaly flag of the
record holds exactly when the anomaly score returned by the anomaly
adapter reaches the configured anomaly-score threshold, and the failure
flag holds exactly when the failure probability returned by the binary
fault adapter reaches the configured failure-probability threshold; both
scores in the record are the raw adapter outputs, so the flags are derived
by the orchestrator, not produced by the adapters. -/
theorem process_row_flags (ad : Adapters) (row : Row) (idx : Nat) (t : ℚ)
    (out : RealtimeOutput)
    (h : process_row_core ad row idx t = Except.ok out) :
    ad.compute_anomaly_score (build_single_row_feature_df row)
      = Except.ok out.anomaly_score ∧
    ad.failure_probability (build_single_row_feature_df row)
      = Except.ok out.failure_proba ∧
    (out.anomaly_flag = true ↔ out.anomaly_score ≥ ANOMALY_SCORE_THRESHOLD) ∧
    (out.failure_flag = true ↔ out.failure_proba ≥ FAILURE_PROBA_THRESHOLD) := by
  simp only [process_row_core] at h
  rcases h1 : ad.compute_anomaly_score (build_single_row_feature_df row)
    with e | v1 <;> simp only [h1] at h
  · exact Except.noConfusion h
  rcases h2 : ad.failure_probability (build_single_row_feature_df row)
    with e | v2 <;> simp only [h2] at h
  · exact Except.noConfusion h
  rcases h3 : ad.predict_failure_mode (build_single_row_feature_df row)
    with e | v3 <;> simp only [h3] at h
  · exact Except.noConfusion h
  rcases h4 : ad.predict_failure_mode_proba (build_single_row_feature_df row)
    with e | v4 <;> simp only [h4] at h
  · exact Except.noConfusion h
  rcases h5 : ad.predict_rul (build_single_row_feature_df row)
    with e | v5 <;> simp only [h5] at h
  · exact Except.noConfusion h
  rcases h6 : ad.predict_energy (build_single_row_feature_df row)
    with e | v6 <;> simp only [h6] at h
  · exact Except.noConfusion h
  rw [Except.ok.injEq] at h
  subst h
  refine ⟨rfl, rfl, ?_, ?_⟩ <;> simp [decide_eq_true_eq]

/-- Output record of a successful run of the pipeline on a small concrete
observation with `okAdapters`. -/
def demoOut : RealtimeOutput :=
  { row_index := 0
    raw_row := [("Type", 1)]
    anomaly_score := 1/2
    anomaly_flag := false
    failure_proba := 1/10
    failure_flag := false
    failure_mode := "NORMAL"
    failure_mode_confidence := 9/10
    rul_estimate := 200
    energy_estimate := 5
    maintenance_action := "normal"
    maintenance_priority := 6
    maintenance_reasoning := "Normal operation. Low failure risk. Continue normal monitoring."
    expected_cost := 500
    scheduled_time := none }

/-- Witness for C10 on a concrete successful call. -/
theorem process_row_flags_witness :
    okAdapters.compute_anomaly_score (build_single_row_feature_df [("Type", 1)])
      = Except.ok demoOut.anomaly_score ∧
    okAdapters.failure_probability (build_single_row_feature_df [("Type", 1)])
      = Except.ok demoOut.failure_proba ∧
    (demoOut.anomaly_flag = true ↔ demoOut.anomaly_score ≥ ANOMALY_SCORE_THRESHOLD) ∧
    (demoOut.failure_flag = true ↔ demoOut.failure_proba ≥ FAILURE_PROBA_THRESHOLD) :=
  process_row_flags okAdapters [("Type", 1)] 0 0 demoOut (by
    have hflag : (decide ((1:ℚ)/2 ≥ ANOMALY_SCORE_THRESHOLD)) = false := by
      rw [decide_eq_false_iff_not]
      norm_num [ANOMALY_SCORE_THRESHOLD]
    have hflag2 : (decide ((1:ℚ)/10 ≥ FAILURE_PROBA_THRESHOLD)) = false := by
      rw [decide_eq_false_iff_not]
      norm_num [FAILURE_PROBA_THRESHOLD]
    simp only [process_row_core, okAdapters, hflag, hflag2]
    norm_num [demoOut, RealtimeOutput.mk.injEq, optimize_maintenance_decision,
      mkDecision, FAILURE_PROBA_THRESHOLD, FAILURE_COST, compute_expected_cost,
      get_maintenance_priority, MaintenanceAction.value])
